import Mathlib

/-!
Verification of the job-lifecycle worker helpers and the release-task
audio-path helpers of the ACE-Step API server.

The embedding mirrors, statement by statement:
  * `process_queue_item` and `run_job_store_cleanup_loop` from
    `acestep/api/jobs/worker_loops.py`, and
  * `validate_audio_path` and `save_upload_to_temp` from
    `acestep/api/http/release_task_audio_paths.py`.

Effectful Python code is embedded as pure functions that return, besides the
final state, an explicit trace of the observable actions performed (progress
events published, completion signals set, store mutations, temp-file cleanup,
queue acknowledgement), so that ordering claims become statements over the
trace. Python exceptions raised by collaborators are modelled as explicit
outcome parameters (`RunBehavior.raises`, `TickResult.raises`, a failing
chunk index for uploads). POSIX path functions from the standard library
(`os.path.normpath`, `os.path.realpath`, `os.path.commonpath`,
`os.path.isabs`) are modelled on strings, with `realpath` taken on a
filesystem without symbolic links relative to an explicit working directory.
-/

namespace AceStep

/-! ## Data model: job records (spec section 3, `worker_loops.py`) -/

/-- Job lifecycle status, `JobRecord.status` in the spec's data model. -/
inductive JobStatus
  | queued
  | running
  | succeeded
  | failed
deriving DecidableEq, Repr

/-- State of one job as seen by the worker: status, optional result payload,
optional error message, and presence of the two notification handles.
The progress queue and done event are optional objects in Python; only their
presence matters to the worker's control flow, so they are embedded as
presence flags, while the published events are recorded in the trace. -/
structure JobRecord where
  status : JobStatus
  result : Option String
  error : Option String
  hasProgressQueue : Bool
  hasDoneEvent : Bool
deriving DecidableEq, Repr

/-- Progress event published on a job's progress queue: one of
`type result` (with payload), `type error` (with content), `type done`. -/
inductive Event
  | result (payload : String)
  | error (content : String)
  | done
deriving DecidableEq, Repr

/-- Observable action performed by `process_queue_item`, in program order. -/
inductive Action
  | removePending
  | markFailed (msg : String)
  | publish (e : Event)
  | setDoneEvent
  | cleanupTemp
  | taskDone
deriving DecidableEq, Repr

/-- Behaviour of the external execution routine `run_one_job` for one call:
it may mutate the job record (`update`, applied before control returns to the
worker) and may raise an exception carrying message `raises`. -/
structure RunBehavior where
  update : JobRecord → JobRecord
  raises : Option String

/-- Result of `process_queue_item`: final pending-id list, final job record
(`none` when the store had no record), and the trace of observable actions. -/
structure WorkerResult where
  pending : List String
  record : Option JobRecord
  trace : List Action
deriving Repr

/-- `status in ("succeeded", "failed")`: terminal statuses. -/
def isTerminal (s : JobStatus) : Bool :=
  s = JobStatus.succeeded ∨ s = JobStatus.failed

/-- `store.mark_failed(job_id, error)`: sets `status = failed`,
`error = message` on the record (spec section 6, test fake `_FakeStore`). -/
def markFailedRecord (rec : JobRecord) (msg : String) : JobRecord :=
  { rec with status := JobStatus.failed, error := some msg }

/-- `rec.error or "Generation failed"`: Python `or` falls through on a
missing or empty (falsy) error string. -/
def errorContent (e : Option String) : String :=
  match e with
  | some s => if s = "" then "Generation failed" else s
  | none => "Generation failed"

/-- Events published on the normal-return path of `process_queue_item`
before the final `done` event (worker_loops.py lines 39-42): a `result`
event when `rec.status == "succeeded" and rec.result` is truthy, else an
`error` event when `rec.status == "failed"`. -/
def successEvents (rec : JobRecord) : List Event :=
  match rec.status, rec.result with
  | JobStatus.succeeded, some p => if p = "" then [] else [Event.result p]
  | JobStatus.failed, _ => [Event.error (errorContent rec.error)]
  | _, _ => []

/-- `try: pending_ids.remove(job_id) except ValueError: pass`
(worker_loops.py lines 31-34): remove the first occurrence of the id,
absence is swallowed. The pending-id collection is embedded as a list, the
collection type whose `remove` raises the `ValueError` the code catches. -/
def removePendingId (pending : List String) (jobId : String) : List String :=
  if pending.contains jobId then pending.erase jobId else pending

/-- `process_queue_item(job_id, req, app_state, store, run_one_job,
cleanup_job_temp_files)` (worker_loops.py lines 9-57). `rec0` is what
`store.get(job_id)` returns; `run` is the behaviour of `run_one_job` on this
call; the request payload plays no role in the worker's own control flow. -/
def process_queue_item (pending : List String) (jobId : String)
    (rec0 : Option JobRecord) (run : RunBehavior) : WorkerResult :=
  let pendingAfter := removePendingId pending jobId
  match rec0 with
  | none =>
      { pending := pendingAfter, record := none,
        trace := [Action.removePending, Action.cleanupTemp, Action.taskDone] }
  | some rec =>
      let recRun := run.update rec
      match run.raises with
      | none =>
          let pubs :=
            if recRun.hasProgressQueue then successEvents recRun ++ [Event.done]
            else []
          let doneActs :=
            if recRun.hasDoneEvent then [Action.setDoneEvent] else []
          { pending := pendingAfter, record := some recRun,
            trace := Action.removePending :: (pubs.map Action.publish ++ doneActs
              ++ [Action.cleanupTemp, Action.taskDone]) }
      | some msg =>
          let recFinal :=
            if isTerminal recRun.status then recRun else markFailedRecord recRun msg
          let mfActs :=
            if isTerminal recRun.status then [] else [Action.markFailed msg]
          let pubs :=
            if recRun.hasProgressQueue then [Event.error msg, Event.done] else []
          let doneActs :=
            if recRun.hasDoneEvent then [Action.setDoneEvent] else []
          { pending := pendingAfter, record := some recFinal,
            trace := Action.removePending :: (mfActs ++ pubs.map Action.publish
              ++ doneActs ++ [Action.cleanupTemp, Action.taskDone]) }

/-- Events published on the progress queue, in order, read off the trace. -/
def publishedEvents (t : List Action) : List Event :=
  t.filterMap fun a =>
    match a with
    | Action.publish e => some e
    | _ => none

/-- Whether an action is a progress-queue publication. -/
def isPublish (a : Action) : Bool :=
  match a with
  | Action.publish _ => true
  | _ => false

/-- Whether a trace contains any `store.mark_failed` call. -/
def hasMarkFailed (t : List Action) : Bool :=
  t.any fun a =>
    match a with
    | Action.markFailed _ => true
    | _ => false

/-! ## Cleanup loop (`run_job_store_cleanup_loop`, worker_loops.py 60-78) -/

/-- Outcome of one iteration's collaborator calls: the sleep (or the body)
is cancelled, or `store.cleanup_old_jobs()` returns a count, or it raises. -/
inductive TickResult
  | cancelled
  | removed (n : Nat)
  | raises (msg : String)
deriving DecidableEq, Repr

/-- A call to `log_fn`: either the cleaned-up-jobs stats report (emitted
when the removed count is positive, carrying that count and the
`store.get_stats()` payload) or the caught-error report. -/
inductive LogEntry
  | cleanupStats (removed : Nat) (stats : String)
  | cleanupError (msg : String)
deriving DecidableEq, Repr

/-- Logs emitted by one non-cancelled loop iteration (worker_loops.py
69-78): stats are fetched and logged only when `removed > 0`; any raised
exception is caught and logged. -/
def cleanupIterationLogs (stats : String) : TickResult → List LogEntry
  | TickResult.cancelled => []
  | TickResult.removed n => if n > 0 then [LogEntry.cleanupStats n stats] else []
  | TickResult.raises m => [LogEntry.cleanupError m]

/-- `run_job_store_cleanup_loop(store, interval)` run against a finite
prefix of per-tick collaborator outcomes: returns the logs emitted and
whether the loop exited (it exits only via the `CancelledError` branch;
`false` means it is still running after consuming the whole prefix). -/
def run_job_store_cleanup_loop (stats : String) :
    List TickResult → List LogEntry × Bool
  | [] => ([], false)
  | t :: ts =>
      match t with
      | TickResult.cancelled => ([], true)
      | _ =>
          let rest := run_job_store_cleanup_loop stats ts
          (cleanupIterationLogs stats t ++ rest.1, rest.2)

/-- Whether a log entry is the positive-count stats report. -/
def isStatsLog (l : LogEntry) : Bool :=
  match l with
  | LogEntry.cleanupStats _ _ => true
  | _ => false

/-- Whether a tick returned a positive removed count. -/
def isPositiveTick (t : TickResult) : Bool :=
  match t with
  | TickResult.removed n => decide (n > 0)
  | _ => false

/-- Whether a tick is not the cancellation signal. -/
def notCancelled (t : TickResult) : Bool :=
  match t with
  | TickResult.cancelled => false
  | _ => true

/-! ## POSIX path model (`os.path`, used by release_task_audio_paths.py) -/

/-- Splitting a character list at every `/`, accumulator in reverse. -/
def splitSlashAux (cur : List Char) : List Char → List (List Char)
  | [] => [cur.reverse]
  | c :: cs =>
      if c = '/' then cur.reverse :: splitSlashAux [] cs
      else splitSlashAux (c :: cur) cs

/-- Python `path.split("/")` (`str.split` with the POSIX separator). -/
def splitSlash (s : String) : List String :=
  (splitSlashAux [] s.data).map String.mk

/-- Number of leading `/` characters of a path. -/
def leadingSlashCount : List Char → Nat
  | c :: cs => if c = '/' then leadingSlashCount cs + 1 else 0
  | [] => 0

/-- `os.path.isabs` on POSIX: the path starts with a slash. -/
def isabs (p : String) : Bool :=
  match p.data with
  | c :: _ => c = '/'
  | [] => false

/-- Python `"/".join(comps)`. -/
def joinSlash : List String → String
  | [] => ""
  | [x] => x
  | x :: xs => x ++ "/" ++ joinSlash xs

/-- Component pass of `posixpath.normpath`: the accumulator holds the kept
components in reverse. Empty and `.` components are dropped; `..` is kept
when the path is relative and nothing has been kept yet or the last kept
component is itself `..`; otherwise `..` pops the last kept component. -/
def normpathComps (slashes : Nat) (acc : List String) :
    List String → List String
  | [] => acc.reverse
  | comp :: rest =>
      if comp = "" ∨ comp = "." then
        normpathComps slashes acc rest
      else if comp ≠ ".." ∨ (slashes = 0 ∧ acc = []) ∨ acc.head? = some ".." then
        normpathComps slashes (comp :: acc) rest
      else if acc ≠ [] then
        normpathComps slashes acc.tail rest
      else
        normpathComps slashes acc rest

/-- `posixpath.normpath`: collapse `.`/`..`/empty components; one leading
slash is kept, exactly two leading slashes are kept as two (POSIX). -/
def normpath (path : String) : String :=
  if path = "" then "."
  else
    let lead := leadingSlashCount path.data
    let slashes : Nat := if lead = 0 then 0 else if lead = 2 then 2 else 1
    let comps := normpathComps slashes [] (splitSlash path)
    let res := String.mk (List.replicate slashes '/') ++ joinSlash comps
    if res = "" then "." else res

/-- `os.path.realpath` on a POSIX filesystem without symbolic links, with
current working directory `cwd`: absolutize against `cwd` and normalize. -/
def realpath (cwd path : String) : String :=
  if isabs path then normpath path else normpath (cwd ++ "/" ++ path)

/-- Longest common component run of two component lists. -/
def commonRun : List String → List String → List String
  | x :: xs, y :: ys => if x = y then x :: commonRun xs ys else []
  | _, _ => []

/-- `os.path.commonpath([a, b])` on POSIX: `none` models the `ValueError`
raised when absolute and relative paths are mixed; otherwise the longest
common sub-path of the two, comparing components with empty and `.`
components dropped. -/
def commonpath2 (a b : String) : Option String :=
  if isabs a = isabs b then
    let fa := (splitSlash a).filter fun c => decide (c ≠ "" ∧ c ≠ ".")
    let fb := (splitSlash b).filter fun c => decide (c ≠ "" ∧ c ≠ ".")
    let lead := if isabs a then "/" else ""
    some (lead ++ joinSlash (commonRun fa fb))
  else none

/-! ## Audio-path validation (`release_task_audio_paths.py` lines 14-46) -/

/-- Outcome of `validate_audio_path`: a returned value, or an
`HTTPException` with status code and detail. -/
inductive PathCheck
  | accepted (result : Option String)
  | rejected (status : Nat) (detail : String)
deriving DecidableEq, Repr

/-- The `is_in_temp` computation of `validate_audio_path` (lines 30-35):
whether `commonpath([realpath(gettempdir()), realpath(path)])` equals the
real system temp directory, with the `ValueError` branch yielding `False`.
`tmpdir` is what `tempfile.gettempdir()` returns. -/
def isInTempDir (cwd tmpdir p : String) : Bool :=
  let systemTemp := realpath cwd tmpdir
  let requested := realpath cwd p
  match commonpath2 systemTemp requested with
  | some c => c = systemTemp
  | none => false

/-- `validate_audio_path(path)` (release_task_audio_paths.py lines 14-46),
parameterized by the working directory `cwd` and the system temporary
directory `tmpdir`. `none` and the empty string are falsy and return
`None`; a path resolving inside system temp is accepted as its real path;
otherwise absolute paths are rejected, then relative paths whose
normalized form still holds a `..` component are rejected, and the
remaining relative paths are returned unchanged. -/
def validate_audio_path (cwd tmpdir : String) (path : Option String) :
    PathCheck :=
  match path with
  | none => PathCheck.accepted none
  | some p =>
      if p = "" then PathCheck.accepted none
      else if isInTempDir cwd tmpdir p then
        PathCheck.accepted (some (realpath cwd p))
      else if isabs p then
        PathCheck.rejected 400 "absolute audio file paths are not allowed"
      else if (splitSlash (normpath p)).contains ".." then
        PathCheck.rejected 400 "path traversal in audio file paths is not allowed"
      else PathCheck.accepted (some p)

/-! ## Upload persistence (`save_upload_to_temp`, lines 49-84) -/

/-- Outcome of `save_upload_to_temp`: the returned path (or `none` when the
write failure is re-raised), whether it raised, the chunks present in the
temp file afterwards (`none` when the file was removed), and whether
`upload.close()` ran. -/
structure SaveOutcome where
  returned : Option String
  raised : Bool
  fileContent : Option (List String)
  uploadClosed : Bool
deriving DecidableEq, Repr

/-- The chunked write loop (lines 67-72): reads chunks in order, stops at
an empty chunk, writes each chunk; `failAt = some i` means the write of the
i-th chunk raises. Returns the chunks written before the failure and
whether a write failed. -/
def writeChunks : List String → Option Nat → List String × Bool
  | [], _ => ([], false)
  | c :: cs, failAt =>
      if c = "" then ([], false)
      else
        match failAt with
        | some 0 => ([], true)
        | some (n + 1) =>
            let rest := writeChunks cs (some n)
            (c :: rest.1, rest.2)
        | none =>
            let rest := writeChunks cs none
            (c :: rest.1, rest.2)

/-- Whether the write loop raises for the given chunks and failure point. -/
def writeFails (chunks : List String) (failAt : Option Nat) : Bool :=
  (writeChunks chunks failAt).2

/-- `save_upload_to_temp(upload, prefix)` (lines 49-84): `tmpPath` is the
unique path `tempfile.mkstemp` created, `chunks` the upload's chunk
sequence, `failAt` the failing write, if any. On a write failure the
partial file is removed and the failure re-raised; the upload is closed in
the `finally` block on both paths; on success the path is returned. -/
def save_upload_to_temp (tmpPath : String) (chunks : List String)
    (failAt : Option Nat) : SaveOutcome :=
  let written := writeChunks chunks failAt
  if written.2 then
    { returned := none, raised := true, fileContent := none,
      uploadClosed := true }
  else
    { returned := some tmpPath, raised := false, fileContent := some written.1,
      uploadClosed := true }

end AceStep

namespace AceStep

/-! ## Supporting lemmas -/

/-- Removing a pending id with the swallowed-absence semantics is plain
list erasure. -/
theorem removePendingId_eq_erase (pending : List String) (jobId : String) :
    removePendingId pending jobId = pending.erase jobId := by
  unfold removePendingId
  by_cases h : jobId ∈ pending
  · simp [List.elem_iff, h]
  · simp [List.elem_iff, h, List.erase_of_not_mem h]

/-! ## Claims about `process_queue_item` -/

/-- C1: for every processed job with a progress channel, exactly one `done`
event is published and it is the last event published; and among publish
and completion-signal actions, the completion signal (when present) comes
after every published event — on the normal-return and raised-failure
paths alike. -/
theorem C1_done_last (pending : List String) (jobId : String)
    (rec0 : Option JobRecord) (run : RunBehavior) (r : JobRecord)
    (h1 : rec0 = some r) (h2 : (run.update r).hasProgressQueue = true) :
    (publishedEvents (process_queue_item pending jobId rec0 run).trace).count
        Event.done = 1
    ∧ (publishedEvents (process_queue_item pending jobId rec0 run).trace).getLast?
        = some Event.done
    ∧ (process_queue_item pending jobId rec0 run).trace.filter
          (fun a => isPublish a || a == Action.setDoneEvent)
        = (publishedEvents (process_queue_item pending jobId rec0 run).trace).map
            Action.publish
          ++ (if (run.update r).hasDoneEvent then [Action.setDoneEvent] else []) := by
  subst h1
  rcases hx : run.raises with _ | msg <;>
    rcases hr : run.update r with ⟨st, res, err, hpq, hde⟩ <;>
    rw [hr] at h2 <;> simp only at h2 <;> subst h2 <;>
    cases st <;> rcases res with _ | p <;> cases hde <;>
    simp [process_queue_item, successEvents, errorContent, isTerminal, hx, hr,
      publishedEvents, isPublish] <;>
    split_ifs <;>
    simp_all [publishedEvents, isPublish]

/-- Witness for C1: a queued job with progress channel and completion
signal whose execution routine returns normally. -/
theorem C1_done_last_witness :
    (publishedEvents (process_queue_item [] "j1"
        (some (JobRecord.mk JobStatus.queued none none true true))
        (RunBehavior.mk (fun x => x) none)).trace).count Event.done = 1
    ∧ (publishedEvents (process_queue_item [] "j1"
        (some (JobRecord.mk JobStatus.queued none none true true))
        (RunBehavior.mk (fun x => x) none)).trace).getLast? = some Event.done
    ∧ (process_queue_item [] "j1"
        (some (JobRecord.mk JobStatus.queued none none true true))
        (RunBehavior.mk (fun x => x) none)).trace.filter
          (fun a => isPublish a || a == Action.setDoneEvent)
        = (publishedEvents (process_queue_item [] "j1"
            (some (JobRecord.mk JobStatus.queued none none true true))
            (RunBehavior.mk (fun x => x) none)).trace).map Action.publish
          ++ [Action.setDoneEvent] :=
  C1_done_last [] "j1" (some (JobRecord.mk JobStatus.queued none none true true))
    (RunBehavior.mk (fun x => x) none)
    (JobRecord.mk JobStatus.queued none none true true) rfl rfl

/-- C2: for a job whose execution routine raises with message `msg` while
the record exists with a non-terminal status, the worker marks the record
failed with that message, publishes exactly an `error` event carrying the
message followed by `done` when a progress channel exists, sets the
completion signal exactly once when present, cleans temp files once, and
acknowledges the queue slot once. -/
theorem C2_failure_path (pending : List String) (jobId : String)
    (rec0 : Option JobRecord) (run : RunBehavior) (r : JobRecord) (msg : String)
    (h1 : rec0 = some r) (h2 : run.raises = some msg)
    (h3 : isTerminal (run.update r).status = false) :
    (process_queue_item pending jobId rec0 run).record
        = some { run.update r with status := JobStatus.failed, error := some msg }
    ∧ publishedEvents (process_queue_item pending jobId rec0 run).trace
        = (if (run.update r).hasProgressQueue then [Event.error msg, Event.done]
           else [])
    ∧ (process_queue_item pending jobId rec0 run).trace.count Action.setDoneEvent
        = (if (run.update r).hasDoneEvent then 1 else 0)
    ∧ (process_queue_item pending jobId rec0 run).trace.count
        (Action.markFailed msg) = 1
    ∧ (process_queue_item pending jobId rec0 run).trace.count Action.cleanupTemp = 1
    ∧ (process_queue_item pending jobId rec0 run).trace.count Action.taskDone = 1 := by
  subst h1
  rcases hr : run.update r with ⟨st, res, err, hpq, hde⟩
  rw [hr] at h3
  cases st <;> simp [isTerminal] at h3 <;>
    cases hpq <;> cases hde <;>
    simp [process_queue_item, markFailedRecord, isTerminal, h2, hr,
      publishedEvents, List.count_cons]

/-- Witness for C2: the j2 scenario — record initially queued with both
notification handles, execution routine raises with message "boom". -/
theorem C2_failure_path_witness :
    (process_queue_item ["j2"] "j2"
        (some (JobRecord.mk JobStatus.queued none none true true))
        (RunBehavior.mk (fun x => x) (some "boom"))).record
      = some (JobRecord.mk JobStatus.failed none (some "boom") true true)
    ∧ publishedEvents (process_queue_item ["j2"] "j2"
        (some (JobRecord.mk JobStatus.queued none none true true))
        (RunBehavior.mk (fun x => x) (some "boom"))).trace
      = [Event.error "boom", Event.done]
    ∧ (process_queue_item ["j2"] "j2"
        (some (JobRecord.mk JobStatus.queued none none true true))
        (RunBehavior.mk (fun x => x) (some "boom"))).trace.count
          Action.setDoneEvent = 1
    ∧ (process_queue_item ["j2"] "j2"
        (some (JobRecord.mk JobStatus.queued none none true true))
        (RunBehavior.mk (fun x => x) (some "boom"))).trace.count
          (Action.markFailed "boom") = 1
    ∧ (process_queue_item ["j2"] "j2"
        (some (JobRecord.mk JobStatus.queued none none true true))
        (RunBehavior.mk (fun x => x) (some "boom"))).trace.count
          Action.cleanupTemp = 1
    ∧ (process_queue_item ["j2"] "j2"
        (some (JobRecord.mk JobStatus.queued none none true true))
        (RunBehavior.mk (fun x => x) (some "boom"))).trace.count
          Action.taskDone = 1 :=
  C2_failure_path ["j2"] "j2"
    (some (JobRecord.mk JobStatus.queued none none true true))
    (RunBehavior.mk (fun x => x) (some "boom"))
    (JobRecord.mk JobStatus.queued none none true true) "boom" rfl rfl rfl

/-- C3: when the execution routine raises but the record's status is
already terminal at that point, the worker never calls `mark_failed` and
leaves the record exactly as the execution routine left it. -/
theorem C3_terminal_preserved (pending : List String) (jobId : String)
    (rec0 : Option JobRecord) (run : RunBehavior) (r : JobRecord) (msg : String)
    (h1 : rec0 = some r) (h2 : run.raises = some msg)
    (h3 : isTerminal (run.update r).status = true) :
    hasMarkFailed (process_queue_item pending jobId rec0 run).trace = false
    ∧ (process_queue_item pending jobId rec0 run).record = some (run.update r) := by
  subst h1
  rcases hr : run.update r with ⟨st, res, err, hpq, hde⟩
  rw [hr] at h3
  cases st <;> simp [isTerminal] at h3 <;>
    cases hpq <;> cases hde <;>
    simp [process_queue_item, markFailedRecord, isTerminal, h2, hr, hasMarkFailed]

/-- Witness for C3: a record already succeeded when the routine raises. -/
theorem C3_terminal_preserved_witness :
    hasMarkFailed (process_queue_item [] "j3"
        (some (JobRecord.mk JobStatus.succeeded (some "ok") none true true))
        (RunBehavior.mk (fun x => x) (some "late"))).trace = false
    ∧ (process_queue_item [] "j3"
        (some (JobRecord.mk JobStatus.succeeded (some "ok") none true true))
        (RunBehavior.mk (fun x => x) (some "late"))).record
      = some (JobRecord.mk JobStatus.succeeded (some "ok") none true true) :=
  C3_terminal_preserved [] "j3"
    (some (JobRecord.mk JobStatus.succeeded (some "ok") none true true))
    (RunBehavior.mk (fun x => x) (some "late"))
    (JobRecord.mk JobStatus.succeeded (some "ok") none true true) "late" rfl rfl rfl

/-- C4: cleanup of temp files happens exactly once, queue acknowledgement
happens exactly once, and they are the last two actions (cleanup first,
then acknowledgement) on every exit path of `process_queue_item`. -/
theorem C4_cleanup_ack_once (pending : List String) (jobId : String)
    (rec0 : Option JobRecord) (run : RunBehavior) :
    ((process_queue_item pending jobId rec0 run).trace.count Action.cleanupTemp = 1
      ∧ (process_queue_item pending jobId rec0 run).trace.count Action.taskDone = 1)
    ∧ (process_queue_item pending jobId rec0 run).trace.getLast?
        = some Action.taskDone
    ∧ (process_queue_item pending jobId rec0 run).trace.dropLast.getLast?
        = some Action.cleanupTemp := by
  rcases rec0 with _ | rec
  · simp [process_queue_item]
  · rcases h : run.raises with _ | msg <;>
      rcases hr : run.update rec with ⟨st, res, err, hpq, hde⟩ <;>
      cases st <;> rcases res with _ | p <;> cases hpq <;> cases hde <;>
      simp [process_queue_item, successEvents, errorContent, isTerminal, h, hr,
        List.count_cons, List.count_append] <;>
      split_ifs <;>
      simp_all [List.count_cons]

/-- C5: removing the dequeued id from the pending-id list is idempotent:
when the id is absent the pending list is left untouched and nothing is
raised, the job's trace and final record are the same as when the id is
present, and a job whose execution routine does not raise is never marked
failed. -/
theorem C5_pending_removal_idempotent (pending : List String) (jobId : String)
    (rec0 : Option JobRecord) (run : RunBehavior) (h : jobId ∉ pending) :
    (process_queue_item pending jobId rec0 run).pending = pending
    ∧ (process_queue_item pending jobId rec0 run).trace
        = (process_queue_item (jobId :: pending) jobId rec0 run).trace
    ∧ (process_queue_item pending jobId rec0 run).record
        = (process_queue_item (jobId :: pending) jobId rec0 run).record
    ∧ (run.raises = none →
        hasMarkFailed (process_queue_item pending jobId rec0 run).trace = false) := by
  have hp : removePendingId pending jobId = pending := by
    rw [removePendingId_eq_erase]; exact List.erase_of_not_mem h
  rcases rec0 with _ | rec
  · simp [process_queue_item, hp, hasMarkFailed]
  · rcases hx : run.raises with _ | msg <;>
      rcases hr : run.update rec with ⟨st, res, err, hpq, hde⟩ <;>
      cases st <;> rcases res with _ | p <;> cases hpq <;> cases hde <;>
      simp [process_queue_item, successEvents, errorContent, isTerminal, hx, hr,
        hasMarkFailed, hp]

/-- Witness for C5: a job id absent from the pending list. -/
theorem C5_pending_removal_idempotent_witness :
    ("j1" : String) ∉ (["other"] : List String)
    ∧ ((process_queue_item ["other"] "j1"
          (some (JobRecord.mk JobStatus.queued none none true true))
          (RunBehavior.mk (fun x => x) none)).pending = ["other"]
      ∧ (process_queue_item ["other"] "j1"
          (some (JobRecord.mk JobStatus.queued none none true true))
          (RunBehavior.mk (fun x => x) none)).trace
        = (process_queue_item ["j1", "other"] "j1"
            (some (JobRecord.mk JobStatus.queued none none true true))
            (RunBehavior.mk (fun x => x) none)).trace
      ∧ (process_queue_item ["other"] "j1"
          (some (JobRecord.mk JobStatus.queued none none true true))
          (RunBehavior.mk (fun x => x) none)).record
        = (process_queue_item ["j1", "other"] "j1"
            (some (JobRecord.mk JobStatus.queued none none true true))
            (RunBehavior.mk (fun x => x) none)).record
      ∧ ((RunBehavior.mk (fun x => x) none : RunBehavior).raises = none →
          hasMarkFailed (process_queue_item ["other"] "j1"
            (some (JobRecord.mk JobStatus.queued none none true true))
            (RunBehavior.mk (fun x => x) none)).trace = false)) :=
  ⟨by decide,
    C5_pending_removal_idempotent ["other"] "j1"
      (some (JobRecord.mk JobStatus.queued none none true true))
      (RunBehavior.mk (fun x => x) none) (by decide)⟩

/-- C6: for a job id unknown to the store, `process_queue_item` completes
without publishing, without setting the completion signal, without calling
`mark_failed` (whether or not the execution routine raises), and still
cleans temp files and acknowledges the queue slot. -/
theorem C6_missing_record (pending : List String) (jobId : String)
    (run : RunBehavior) :
    process_queue_item pending jobId none run
      = { pending := pending.erase jobId, record := none,
          trace := [Action.removePending, Action.cleanupTemp, Action.taskDone] } := by
  simp [process_queue_item, removePendingId_eq_erase]

/-! ## Claim about `run_job_store_cleanup_loop` -/

/-- C7: the cleanup loop exits exactly when a cancellation tick occurs
(raised failures are caught and never terminate it), the stats report is
logged exactly on the processed ticks whose removed count is positive, and
on the ticks `[0, 3, RuntimeError]` it logs stats once (the `3` tick),
logs and swallows the failure, and is still running afterwards. -/
theorem C7_cleanup_loop (stats : String) (ticks : List TickResult) :
    (run_job_store_cleanup_loop stats ticks).2
        = ticks.contains TickResult.cancelled
    ∧ (run_job_store_cleanup_loop stats ticks).1.countP isStatsLog
        = (ticks.takeWhile notCancelled).countP isPositiveTick
    ∧ run_job_store_cleanup_loop stats
        [TickResult.removed 0, TickResult.removed 3,
          TickResult.raises "RuntimeError"]
      = ([LogEntry.cleanupStats 3 stats, LogEntry.cleanupError "RuntimeError"],
          false) := by
  refine ⟨?_, ?_, ?_⟩
  · induction ticks with
    | nil => simp [run_job_store_cleanup_loop]
    | cons t ts ih =>
        cases t <;>
          simp [run_job_store_cleanup_loop, cleanupIterationLogs, ih]
  · induction ticks with
    | nil => simp [run_job_store_cleanup_loop]
    | cons t ts ih =>
        cases t <;>
          simp [run_job_store_cleanup_loop, cleanupIterationLogs, notCancelled,
            isPositiveTick, isStatsLog, List.countP_append, List.countP_cons, ih] <;>
          split_ifs <;>
          simp_all [isStatsLog] <;>
          omega
  · simp [run_job_store_cleanup_loop, cleanupIterationLogs]

/-! ## Claims about `validate_audio_path` and `save_upload_to_temp` -/

/-- C8 counterexample: `"a/../x.wav"` is a relative path containing a
parent-directory traversal segment, yet `validate_audio_path` accepts it
unchanged, because the traversal check runs on the normalized path and
`normpath` collapses the interior `".."` away — refuting the claim that
every relative path containing a traversal segment is rejected. -/
theorem C8_traversal_counterexample :
    isabs "a/../x.wav" = false
    ∧ ((splitSlash "a/../x.wav").contains "..") = true
    ∧ validate_audio_path "/home/user" "/tmp" (some "a/../x.wav")
        = PathCheck.accepted (some "a/../x.wav") :=
  ⟨by decide, by decide, by decide⟩

/-- C8 (amended): when the requested path does not resolve into the system
temp directory, absolute paths are rejected with HTTP 400, relative paths
whose normalized form still holds a `..` segment are rejected with HTTP
400, and the remaining relative paths are accepted unchanged; in
particular `"../x.wav"` is rejected, an absolute non-temp path is
rejected, and `"/tmp/foo/x.wav"` and `"clip.wav"` are accepted unchanged. -/
theorem C8_validate_audio_path (cwd tmpdir p : String)
    (hne : p ≠ "") (h : isInTempDir cwd tmpdir p = false) :
    (isabs p = true →
      validate_audio_path cwd tmpdir (some p)
        = PathCheck.rejected 400 "absolute audio file paths are not allowed")
    ∧ (isabs p = false → (splitSlash (normpath p)).contains ".." = true →
      validate_audio_path cwd tmpdir (some p)
        = PathCheck.rejected 400 "path traversal in audio file paths is not allowed")
    ∧ (isabs p = false → (splitSlash (normpath p)).contains ".." = false →
      validate_audio_path cwd tmpdir (some p) = PathCheck.accepted (some p))
    ∧ validate_audio_path "/home/user" "/tmp" (some "../x.wav")
        = PathCheck.rejected 400 "path traversal in audio file paths is not allowed"
    ∧ validate_audio_path "/home/user" "/tmp" (some "/etc/x.wav")
        = PathCheck.rejected 400 "absolute audio file paths are not allowed"
    ∧ validate_audio_path "/home/user" "/tmp" (some "/tmp/foo/x.wav")
        = PathCheck.accepted (some "/tmp/foo/x.wav")
    ∧ validate_audio_path "/home/user" "/tmp" (some "clip.wav")
        = PathCheck.accepted (some "clip.wav") := by
  refine ⟨?_, ?_, ?_, by decide, by decide, by decide, by decide⟩
  · intro hab
    simp [validate_audio_path, hne, h, hab]
  · intro hab htrav
    have htrav' : (".." : String) ∈ splitSlash (normpath p) := by
      simpa [List.elem_iff] using htrav
    simp [validate_audio_path, hne, h, hab, htrav']
  · intro hab htrav
    have htrav' : (".." : String) ∉ splitSlash (normpath p) := by
      simpa [List.elem_iff] using htrav
    simp [validate_audio_path, hne, h, hab, htrav']

/-- Witness for C8 (amended): the traversal path `"../x.wav"` under a
working directory outside system temp is rejected with HTTP 400. -/
theorem C8_validate_audio_path_witness :
    ("../x.wav" : String) ≠ ""
    ∧ isInTempDir "/home/user" "/tmp" "../x.wav" = false
    ∧ validate_audio_path "/home/user" "/tmp" (some "../x.wav")
        = PathCheck.rejected 400 "path traversal in audio file paths is not allowed" :=
  ⟨by decide, by decide,
    (C8_validate_audio_path "/home/user" "/tmp" "../x.wav"
      (by decide) (by decide)).2.2.2.1⟩

/-- C9: `save_upload_to_temp` closes the upload handle on every path; when
a chunk write fails the partial file is removed and nothing is returned
(the failure is re-raised); when no write fails it returns the temporary
file's path and the file holds exactly the written chunks. -/
theorem C9_upload_temp_guarantees (tmpPath : String) (chunks : List String)
    (failAt : Option Nat) :
    (save_upload_to_temp tmpPath chunks failAt).uploadClosed = true
    ∧ (save_upload_to_temp tmpPath chunks failAt).raised = writeFails chunks failAt
    ∧ (save_upload_to_temp tmpPath chunks failAt).fileContent
        = (if writeFails chunks failAt then none
           else some (writeChunks chunks failAt).1)
    ∧ (save_upload_to_temp tmpPath chunks failAt).returned
        = (if writeFails chunks failAt then none else some tmpPath) := by
  unfold save_upload_to_temp writeFails
  split_ifs <;> simp_all

/-- C10: the system-temp membership check takes precedence — any non-empty
path resolving into the system temp directory is accepted as its resolved
real path, traversal segments notwithstanding, without reaching the
traversal rejection; `None` and the empty string yield `None` without
raising. -/
theorem C10_temp_precedence (cwd tmpdir p : String)
    (hne : p ≠ "") (h : isInTempDir cwd tmpdir p = true) :
    validate_audio_path cwd tmpdir (some p)
      = PathCheck.accepted (some (realpath cwd p))
    ∧ validate_audio_path cwd tmpdir none = PathCheck.accepted none
    ∧ validate_audio_path cwd tmpdir (some "") = PathCheck.accepted none := by
  refine ⟨?_, rfl, by simp [validate_audio_path]⟩
  simp [validate_audio_path, hne, h]

/-- Witness for C10: `"../x.wav"` under the working directory `/tmp/work`
resolves to `/tmp/x.wav`, inside system temp, and is accepted as that
resolved path even though it contains a traversal segment. -/
theorem C10_temp_precedence_witness :
    ("../x.wav" : String) ≠ ""
    ∧ isInTempDir "/tmp/work" "/tmp" "../x.wav" = true
    ∧ validate_audio_path "/tmp/work" "/tmp" (some "../x.wav")
        = PathCheck.accepted (some "/tmp/x.wav") :=
  ⟨by decide, by decide,
    (C10_temp_precedence "/tmp/work" "/tmp" "../x.wav" (by decide) (by decide)).1⟩

end AceStep
